import Mathlib

/-
Verification of the listen2this monthly-playlist script (src/main.py) against its
specification.  The Python functions are shallowly embedded as Lean definitions:
strings become lists of characters, the Pillow image objects are tracked through
their dimensions, the JPEG encoder is an abstract size function, and Python
exceptions are modelled with Except.
-/

namespace Listen2This

/-- Whitespace recognised by the trimming step (Python str.strip with no
argument, restricted to the ASCII whitespace characters that occur in feed
titles). -/
def isWs (c : Char) : Bool :=
  c = ' ' || c = '\t' || c = '\n' || c = '\r'

/-- Python str.strip(): remove leading and trailing whitespace. -/
def stripChars (s : List Char) : List Char :=
  ((s.dropWhile isWs).reverse.dropWhile isWs).reverse

/-- The one separator token the source checks for (src/main.py line 42):
a single hyphen surrounded by single spaces. -/
def sepDash : List Char := [' ', '-', ' ']

/-- Python s.split(sep, 1) restricted to a non-empty sep: the parts to the left
and right of the first occurrence of sep, or none when sep does not occur.
The source guards the split by the membership test on line 42, which succeeds
exactly when this returns some. -/
def splitFirst (sep : List Char) : List Char → Option (List Char × List Char)
  | [] => none
  | c :: rest =>
    if sep.isPrefixOf (c :: rest) then some ([], (c :: rest).drop sep.length)
    else
      match splitFirst sep rest with
      | some (l, r) => some (c :: l, r)
      | none => none

/-- Python s.split(ch, 1)[0]: the part of s before the first occurrence of the
character ch, or all of s when ch does not occur. -/
def takeBefore (ch : Char) : List Char → List Char
  | [] => []
  | c :: rest => if c = ch then [] else c :: takeBefore ch rest

/-- One post record of the feed, reduced to the field the parser reads. -/
structure RawPost where
  title : List Char
deriving DecidableEq

/-- The structured song entry built on src/main.py lines 46-50.  The dict keys
artist, title and query become fields; query is the spec's searchQuery. -/
structure SongQuery where
  artist : List Char
  title : List Char
  query : List Char
deriving DecidableEq

/-- The loop body of parse_song_titles (src/main.py lines 40-50) on one title:
split at the first occurrence of the separator; the part before the first open
bracket, then before the first open parenthesis, of the right side is stripped
to give the song title; the query interpolates the unstripped left side and the
stripped song title. -/
def parseOne (title : List Char) : Option SongQuery :=
  match splitFirst sepDash title with
  | none => none
  | some (artist, rest) =>
    let songTitle := stripChars (takeBefore '(' (takeBefore '[' rest))
    some { artist := stripChars artist
           title := songTitle
           query := artist ++ [' '] ++ songTitle }

/-- parse_song_titles (src/main.py lines 36-52): titles with no separator are
skipped, the others each contribute one SongQuery, in feed order. -/
def parse_song_titles (posts : List RawPost) : List SongQuery :=
  posts.filterMap (fun p => parseOne p.title)

/-- The truncation rule as the spec words it: the remainder is cut at the first
occurrence of an open bracket or an open parenthesis, whichever occurs first,
if either occurs.  Stated independently of the source's two-stage split so the
two can be compared. -/
def truncAtBracket : List Char → List Char
  | [] => []
  | c :: rest => if c = '[' || c = '(' then [] else c :: truncAtBracket rest

/-- The source's two chained one-character splits compute exactly the
first-of-either truncation. -/
theorem takeBefore_trunc (s : List Char) :
    takeBefore '(' (takeBefore '[' s) = truncAtBracket s := by
  induction s with
  | nil => rfl
  | cons c rest ih =>
    by_cases h1 : c = '['
    · simp [takeBefore, truncAtBracket, h1]
    · by_cases h2 : c = '('
      · simp [takeBefore, truncAtBracket, h1, h2]
      · simp [takeBefore, truncAtBracket, h1, h2, ih]

/-- Claim C1 counterexample: on the input "A -- B [x] (y)" the parser does not
produce a SongQuery with artist "A"; it produces no SongQuery at all, because
the only separator it knows, space-hyphen-space, does not occur in that
string. -/
theorem c1_counterexample :
    (parse_song_titles [⟨"A -- B [x] (y)".toList⟩]).map SongQuery.artist ≠
      ["A".toList] := by decide

/-- Claim C1 amended: the parser has no ordered candidate list and no
double-hyphen separator; its only separator token is space-hyphen-space, which
does not occur in "A -- B [x] (y)", so that title yields no SongQuery. -/
theorem c1_amended :
    splitFirst sepDash ("A -- B [x] (y)".toList) = none ∧
    parse_song_titles [⟨"A -- B [x] (y)".toList⟩] = [] := by decide

/-- The three-post feed of the end-to-end scenario. -/
def c2Feed : List RawPost :=
  [⟨"Foo - Bar [Rock] (2021)".toList⟩,
   ⟨"NoSeparatorHere".toList⟩,
   ⟨"Baz — Qux".toList⟩]

/-- Claim C2 counterexample: the parser yields one SongQuery on that feed, not
two — the em-dash title is dropped because the parser only recognises the
ASCII space-hyphen-space separator. -/
theorem c2_counterexample : (parse_song_titles c2Feed).length ≠ 2 := by decide

/-- Claim C2 amended: on that feed the parser yields exactly one SongQuery,
artist "Foo" and title "Bar"; both the separator-less title and the em-dash
title yield no SongQuery, without an error. -/
theorem c2_amended :
    parse_song_titles c2Feed =
      [{ artist := "Foo".toList, title := "Bar".toList,
         query := "Foo Bar".toList }] ∧
    parseOne ("NoSeparatorHere".toList) = none ∧
    parseOne ("Baz — Qux".toList) = none := by decide

/-- Claim C7 counterexample: for the post title " X - Y" the stored artist is
the trimmed "X", but the stored query is " X Y", built from the untrimmed left
segment, so the query is not artist-space-title. -/
theorem c7_counterexample :
    parse_song_titles [⟨" X - Y".toList⟩] =
      [{ artist := "X".toList, title := "Y".toList, query := " X Y".toList }] ∧
    " X Y".toList ≠ "X".toList ++ [' '] ++ "Y".toList := by decide

/-- Claim C7 amended: the query of every produced SongQuery is the untrimmed
left segment of the split, a space, and the trimmed title; it coincides with
the SongQuery's own artist field followed by the title exactly when that left
segment carries no surrounding whitespace. -/
theorem c7_amended (t : List Char) (sq : SongQuery) (h : parseOne t = some sq) :
    ∃ raw rest, splitFirst sepDash t = some (raw, rest) ∧
      sq.artist = stripChars raw ∧
      sq.query = raw ++ [' '] ++ sq.title ∧
      (stripChars raw = raw → sq.query = sq.artist ++ [' '] ++ sq.title) := by
  unfold parseOne at h
  cases hs : splitFirst sepDash t with
  | none => rw [hs] at h; exact absurd h (by simp)
  | some pr =>
    obtain ⟨raw, rest⟩ := pr
    rw [hs] at h
    simp only [Option.some.injEq] at h
    refine ⟨raw, rest, rfl, ?_, ?_, ?_⟩
    · rw [← h]
    · rw [← h]
    · intro htrim
      rw [← h]
      simp only
      rw [htrim]

/-- Claim C7 witness: the amended statement instantiated on a title whose
artist segment is already trimmed. -/
theorem c7_witness :
    ∃ raw rest, splitFirst sepDash ("Foo - Bar".toList) = some (raw, rest) ∧
      ({ artist := "Foo".toList, title := "Bar".toList,
         query := "Foo Bar".toList } : SongQuery).artist = stripChars raw ∧
      ({ artist := "Foo".toList, title := "Bar".toList,
         query := "Foo Bar".toList } : SongQuery).query =
        raw ++ [' '] ++ "Bar".toList ∧
      (stripChars raw = raw →
        ({ artist := "Foo".toList, title := "Bar".toList,
           query := "Foo Bar".toList } : SongQuery).query =
          "Foo".toList ++ [' '] ++ "Bar".toList) :=
  c7_amended ("Foo - Bar".toList)
    { artist := "Foo".toList, title := "Bar".toList, query := "Foo Bar".toList }
    (by decide)

/-- Claim C10: whenever the separator is found, the title field is the right
side of the split truncated at the first open bracket or open parenthesis,
whichever occurs first, then trimmed; in particular the title
"Artist - Song Title [Genre] (2020)" yields the song title "Song Title". -/
theorem c10_title_truncation :
    (∀ (t raw rest : List Char), splitFirst sepDash t = some (raw, rest) →
      ∀ sq, parseOne t = some sq → sq.title = stripChars (truncAtBracket rest)) ∧
    (parseOne ("Artist - Song Title [Genre] (2020)".toList)).map SongQuery.title =
      some ("Song Title".toList) := by
  constructor
  · intro t raw rest hs sq h
    unfold parseOne at h
    rw [hs] at h
    simp only [Option.some.injEq] at h
    rw [← h]
    simp only
    rw [takeBefore_trunc]
  · decide

/-- Claim C10 witness: the universal part instantiated on the concrete title
of the claim. -/
theorem c10_witness :
    ({ artist := "Artist".toList, title := "Song Title".toList,
       query := "Artist Song Title".toList } : SongQuery).title =
      stripChars (truncAtBracket ("Song Title [Genre] (2020)".toList)) :=
  c10_title_truncation.1 ("Artist - Song Title [Genre] (2020)".toList)
    ("Artist".toList) ("Song Title [Genre] (2020)".toList) (by decide)
    { artist := "Artist".toList, title := "Song Title".toList,
      query := "Artist Song Title".toList } (by decide)

/-- The resampling filters Pillow offers; both resize calls of the source
(src/main.py lines 140 and 211) pass Image.LANCZOS. -/
inductive ResampleFilter where
  | nearest
  | bilinear
  | bicubic
  | lanczos
deriving DecidableEq

/-- The filter argument of both resize calls in get_and_modify_cover_image. -/
def coverResampleFilter : ResampleFilter := ResampleFilter.lanczos

/-- The downscale bound of src/main.py line 136. -/
def max_size : Nat := 1500

/-- The downscale step (src/main.py lines 135-141): when max(w, h) exceeds
1500, both dimensions are multiplied by the ratio 1500 / max(w, h) and
truncated to integers; Python int(x * ratio) is modelled by the exact rational
floor, which Nat division computes. -/
def resizeStep (w h : Nat) : Nat × Nat :=
  if max w h > max_size then
    (w * max_size / max w h, h * max_size / max w h)
  else (w, h)

/-- The byte threshold of the encoder escalation (src/main.py lines 197-208):
the source compares len(bytes) / 1024 with 200, and division by 1024 is exact,
so the test is len(bytes) > 200 * 1024. -/
def sizeCeiling : Nat := 200 * 1024

/-- The result of the encode-and-escalate tail: the dimensions and quality of
the final JPEG encode, and its byte length. -/
structure EncodedCover where
  w : Nat
  h : Nat
  quality : Nat
  size : Nat
deriving DecidableEq

/-- The encode-and-escalate tail of get_and_modify_cover_image (src/main.py
lines 190-219), parametric in the JPEG encoder: enc w h q is the byte length
the encoder produces for the current image at dimensions w, h and the given
quality.  First encode at quality 85; if over the ceiling re-encode at 70; if
still over, shrink both dimensions by 0.75 (exact for integers, hence
w * 3 / 4) and encode once more at 70, accepting that result unconditionally. -/
def compressCover (enc : Nat → Nat → Nat → Nat) (w h : Nat) : EncodedCover :=
  if enc w h 85 > sizeCeiling then
    if enc w h 70 > sizeCeiling then
      ⟨w * 3 / 4, h * 3 / 4, 70, enc (w * 3 / 4) (h * 3 / 4) 70⟩
    else ⟨w, h, 70, enc w h 70⟩
  else ⟨w, h, 85, enc w h 85⟩

/-- The dimensions of the image flowing through get_and_modify_cover_image for
a decoded source of dimensions w, h: the only dimension changes in the whole
function are the max-1500 downscale and the conditional 0.75 shrink inside the
encoder; the function contains no cropping step. -/
def coverOutputDims (enc : Nat → Nat → Nat → Nat) (w h : Nat) : Nat × Nat :=
  ((compressCover enc (resizeStep w h).1 (resizeStep w h).2).w,
   (compressCover enc (resizeStep w h).1 (resizeStep w h).2).h)

/-- Claim C3 counterexample: a 1000 by 800 source is small enough to skip the
downscale and (with an encoder that stays under the ceiling) the shrink, and
the pipeline emits it at 1000 by 800 — not square, because the pipeline never
crops. -/
theorem c3_counterexample :
    (coverOutputDims (fun _ _ _ => 0) 1000 800).1 ≠
      (coverOutputDims (fun _ _ _ => 0) 1000 800).2 := by decide

/-- Claim C3 amended: the pipeline performs no center-crop at all; its output
dimensions are exactly the downscaled source dimensions, or those dimensions
each shrunk once by the floor-rounded 0.75 factor, so the output is not square
in general. -/
theorem c3_amended (enc : Nat → Nat → Nat → Nat) (w h : Nat) :
    coverOutputDims enc w h = resizeStep w h ∨
    coverOutputDims enc w h =
      ((resizeStep w h).1 * 3 / 4, (resizeStep w h).2 * 3 / 4) := by
  unfold coverOutputDims compressCover
  split
  · split
    · right; rfl
    · left; exact Prod.mk.eta
  · left; exact Prod.mk.eta

/-- Claim C4 counterexample: a 1000 by 800 source already satisfies
max(w, h) ≤ 1500, so the downscale step leaves it untouched and its larger
dimension stays 1000, above the claimed 500 bound. -/
theorem c4_counterexample :
    ¬ max (resizeStep 1000 800).1 (resizeStep 1000 800).2 ≤ 500 := by decide

/-- Claim C4 amended: the downscale bound is 1500, not 500.  The step caps
max(w, h) at 1500, never enlarges either dimension, leaves any image whose
larger dimension is within 1500 untouched, and both resize calls use the
Lanczos filter. -/
theorem c4_amended (w h : Nat) :
    max (resizeStep w h).1 (resizeStep w h).2 ≤ max_size ∧
    (resizeStep w h).1 ≤ w ∧ (resizeStep w h).2 ≤ h ∧
    (max w h ≤ max_size → resizeStep w h = (w, h)) ∧
    coverResampleFilter = ResampleFilter.lanczos := by
  unfold resizeStep
  split
  · rename_i hgt
    have hm : 0 < max w h := by omega
    have hb : max_size ≤ max w h := by omega
    have hw1 : w * max_size / max w h ≤ max_size := by
      calc w * max_size / max w h ≤ max w h * max_size / max w h :=
            Nat.div_le_div_right (Nat.mul_le_mul_right max_size (le_max_left w h))
        _ = max_size := Nat.mul_div_cancel_left max_size hm
    have hh1 : h * max_size / max w h ≤ max_size := by
      calc h * max_size / max w h ≤ max w h * max_size / max w h :=
            Nat.div_le_div_right (Nat.mul_le_mul_right max_size (le_max_right w h))
        _ = max_size := Nat.mul_div_cancel_left max_size hm
    have hw2 : w * max_size / max w h ≤ w := by
      calc w * max_size / max w h ≤ w * max w h / max w h :=
            Nat.div_le_div_right (Nat.mul_le_mul_left w hb)
        _ = w := Nat.mul_div_cancel w hm
    have hh2 : h * max_size / max w h ≤ h := by
      calc h * max_size / max w h ≤ h * max w h / max w h :=
            Nat.div_le_div_right (Nat.mul_le_mul_left h hb)
        _ = h := Nat.mul_div_cancel h hm
    exact ⟨max_le hw1 hh1, hw2, hh2, fun hle => absurd hgt (by omega), rfl⟩
  · rename_i hle
    exact ⟨by omega, le_refl w, le_refl h, fun _ => rfl, rfl⟩

/-- Claim C4 witness: the amended statement at 1000 by 800, where the
no-upscale implication applies. -/
theorem c4_witness : resizeStep 1000 800 = (1000, 800) :=
  (c4_amended 1000 800).2.2.2.1 (by decide)

/-- strftime with the %B directive in the C locale (src/main.py line 147):
the full English month name, for month numbers 1 to 12. -/
def monthName : Nat → List Char
  | 1 => "January".toList
  | 2 => "February".toList
  | 3 => "March".toList
  | 4 => "April".toList
  | 5 => "May".toList
  | 6 => "June".toList
  | 7 => "July".toList
  | 8 => "August".toList
  | 9 => "September".toList
  | 10 => "October".toList
  | 11 => "November".toList
  | 12 => "December".toList
  | _ => []

/-- One draw.text call: anchor point, text, font size in points, RGBA fill. -/
structure TextDraw where
  x : Int
  y : Int
  text : List Char
  fontSize : Nat
  fill : Nat × Nat × Nat × Nat
deriving DecidableEq

/-- The size passed to ImageFont.truetype (src/main.py lines 152 and 156). -/
def coverFontSize : Nat := 60

/-- The padding from the right and bottom edges (src/main.py line 174). -/
def coverPadding : Nat := 20

/-- shadow_offset (src/main.py line 177). -/
def shadowOffset : Int := 2

/-- The two draw.text calls of get_and_modify_cover_image (src/main.py lines
174-184) in issue order, for an image of dimensions w, h, a measured text box
of dimensions textW, textH, and the current month number; the newer-Pillow
branch with RGBA fills is the one modelled.  The shadow call is issued first,
so the main text is painted over it. -/
def renderMonthText (w h textW textH month : Nat) : List TextDraw :=
  [{ x := (w : Int) - textW - coverPadding + shadowOffset
     y := (h : Int) - textH - coverPadding + shadowOffset
     text := monthName month
     fontSize := coverFontSize
     fill := (0, 0, 0, 180) },
   { x := (w : Int) - textW - coverPadding
     y := (h : Int) - textH - coverPadding
     text := monthName month
     fontSize := coverFontSize
     fill := (255, 255, 255, 230) }]

/-- Claim C5 counterexample: the font size of both draw calls is 60, not the
claimed 40. -/
theorem c5_counterexample :
    (renderMonthText 1000 1000 300 50 1).map TextDraw.fontSize ≠ [40, 40] := by
  decide

/-- Claim C5 amended: the month text is rendered exactly as claimed except that
the font size is 60pt, not 40pt: two draw calls, the lower-contrast shadow
first, offset by two pixels on each axis from the higher-contrast main text,
whose anchor sits at twenty pixels of padding from the right and bottom
edges. -/
theorem c5_amended (w h textW textH month : Nat) :
    ∃ shadow main, renderMonthText w h textW textH month = [shadow, main] ∧
      main.x = (w : Int) - textW - 20 ∧
      main.y = (h : Int) - textH - 20 ∧
      shadow.x = main.x + 2 ∧ shadow.y = main.y + 2 ∧
      shadow.text = monthName month ∧ main.text = monthName month ∧
      shadow.fontSize = 60 ∧ main.fontSize = 60 ∧
      shadow.fill = (0, 0, 0, 180) ∧ main.fill = (255, 255, 255, 230) := by
  refine ⟨_, _, rfl, rfl, rfl, rfl, rfl, rfl, rfl, rfl, rfl, rfl, rfl⟩

/-- Claim C6 counterexample: with an encoder that yields 300 KiB whatever the
dimensions and quality, the escalation ends after the second pass with a
300 KiB buffer — the final size is not bounded by 200 KiB. -/
theorem c6_counterexample :
    ¬ (compressCover (fun _ _ _ => 300 * 1024) 1000 1000).size ≤ 200 * 1024 := by
  decide

/-- Claim C6 amended: the escalation schedule is exactly as claimed — encode at
quality 85, on overflow re-encode the same dimensions at quality 70, on a
second overflow shrink both dimensions by 0.75 and re-encode at quality 70,
with no further escalation — but the final buffer is whatever that last encode
produced; no 200 KiB bound on it is guaranteed. -/
theorem c6_amended (enc : Nat → Nat → Nat → Nat) (w h : Nat) :
    (enc w h 85 ≤ sizeCeiling →
      compressCover enc w h = ⟨w, h, 85, enc w h 85⟩) ∧
    (enc w h 85 > sizeCeiling → enc w h 70 ≤ sizeCeiling →
      compressCover enc w h = ⟨w, h, 70, enc w h 70⟩) ∧
    (enc w h 85 > sizeCeiling → enc w h 70 > sizeCeiling →
      compressCover enc w h =
        ⟨w * 3 / 4, h * 3 / 4, 70, enc (w * 3 / 4) (h * 3 / 4) 70⟩) ∧
    (compressCover enc w h).size =
      enc (compressCover enc w h).w (compressCover enc w h).h
        (compressCover enc w h).quality := by
  refine ⟨fun h1 => ?_, fun h1 h2 => ?_, fun h1 h2 => ?_, ?_⟩
  · unfold compressCover
    rw [if_neg (by omega)]
  · unfold compressCover
    rw [if_pos h1, if_neg (by omega)]
  · unfold compressCover
    rw [if_pos h1, if_pos h2]
  · unfold compressCover
    split
    · split
      · rfl
      · rfl
    · rfl

/-- Claim C6 witness: the amended statement at an encoder that overflows the
ceiling at quality 85 and fits at quality 70, triggering exactly the first
escalation. -/
theorem c6_witness :
    compressCover (fun _ _ q => if q = 85 then 300 * 1024 else 100 * 1024)
      1000 1000 = ⟨1000, 1000, 70, 100 * 1024⟩ :=
  (c6_amended (fun _ _ q => if q = 85 then 300 * 1024 else 100 * 1024)
    1000 1000).2.1 (by decide) (by decide)

/-- The Python exceptions relevant to the cover path: a transport error raised
by requests.get, a decode error raised by Image.open, and an upload error
raised by playlist_upload_cover_image. -/
inductive PyError where
  | transport
  | decodeFailure
  | uploadFailure
deriving DecidableEq

/-- A requests response, reduced to the fields the source reads. -/
structure HttpResponse where
  status : Nat
  body : List Nat
deriving DecidableEq

/-- A post of the secondary feed, reduced to the field the cover path reads. -/
structure ImagePost where
  url : List Char
deriving DecidableEq

/-- get_and_modify_cover_image (src/main.py lines 115-219) with its
collaborators abstracted: posts is the fetched r/earthporn listing, download
models requests.get on the image URL (Except.error is a raised transport
exception), decode models Image.open (Except.error is a raised decode
exception, Except.ok the decoded dimensions), and enc is the JPEG encoder.
The source guards only the non-success status code (lines 127-129, returning
None); exceptions raised by requests.get or Image.open are not caught anywhere
in the function and propagate to the caller, which the Except.error results
model.  The image processing itself is tracked through its dimension and
encoding effects. -/
def get_and_modify_cover_image
    (posts : List ImagePost)
    (download : List Char → Except PyError HttpResponse)
    (decode : List Nat → Except PyError (Nat × Nat))
    (enc : Nat → Nat → Nat → Nat) :
    Except PyError (Option EncodedCover) :=
  match posts with
  | [] => Except.ok none
  | p :: _ =>
    match download p.url with
    | Except.error e => Except.error e
    | Except.ok resp =>
      if resp.status ≠ 200 then Except.ok none
      else
        match decode resp.body with
        | Except.error e => Except.error e
        | Except.ok (w, h) =>
          Except.ok (some (compressCover enc (resizeStep w h).1 (resizeStep w h).2))

/-- set_playlist_cover (src/main.py lines 221-233): the whole upload is inside
try/except, so a raised upload exception becomes a logged False return and
never propagates. -/
def set_playlist_cover (upload : Except PyError Unit) : Bool :=
  match upload with
  | Except.ok _ => true
  | Except.error _ => false

/-- The tail of create_monthly_playlist after the playlist exists (src/main.py
lines 254-263): run the cover pipeline and, when it returned a buffer, attempt
the upload.  On every completing path the playlist identifier is returned
unchanged — the source has no call that deletes a playlist or removes inserted
tracks — while an exception escaping get_and_modify_cover_image aborts the run
before its completion message. -/
def coverPhase (playlistId : Nat)
    (cover : Except PyError (Option EncodedCover))
    (upload : Except PyError Unit) :
    Except PyError (Nat × Bool) :=
  match cover with
  | Except.error e => Except.error e
  | Except.ok none => Except.ok (playlistId, false)
  | Except.ok (some _) => Except.ok (playlistId, set_playlist_cover upload)

/-- The single post of the cover feed used by the concrete C8 instances. -/
def c8Post : ImagePost := ⟨"img".toList⟩

/-- A download collaborator that succeeds with status 200. -/
def c8Download : List Char → Except PyError HttpResponse :=
  fun _ => Except.ok ⟨200, [1, 2, 3]⟩

/-- A decoder that raises, as Image.open does on undecodable bytes. -/
def c8BadDecode : List Nat → Except PyError (Nat × Nat) :=
  fun _ => Except.error PyError.decodeFailure

/-- Claim C8 counterexample: a decode failure is not caught — with a fetched
200 response whose body Image.open rejects, the exception propagates through
get_and_modify_cover_image and aborts the run instead of letting it finish
with the default cover. -/
theorem c8_counterexample :
    coverPhase 7
      (get_and_modify_cover_image [c8Post] c8Download c8BadDecode
        (fun _ _ _ => 0))
      (Except.ok ()) = Except.error PyError.decodeFailure := rfl

/-- Claim C8 amended: upload failures are caught and only downgrade the run to
keeping the default cover, a non-success fetch status skips the cover step
gracefully, and no completing path alters the already created playlist; but an
exception raised while decoding the fetched image propagates uncaught and
aborts the run. -/
theorem c8_amended :
    (∀ (pid : Nat) (buf : EncodedCover) (e : PyError),
      coverPhase pid (Except.ok (some buf)) (Except.error e) =
        Except.ok (pid, false)) ∧
    (∀ (url : List Char) (resp : HttpResponse)
      (decode : List Nat → Except PyError (Nat × Nat))
      (enc : Nat → Nat → Nat → Nat), resp.status ≠ 200 →
      get_and_modify_cover_image [⟨url⟩] (fun _ => Except.ok resp) decode enc =
        Except.ok none) ∧
    (∀ (pid : Nat) (url : List Char) (resp : HttpResponse) (e : PyError)
      (enc : Nat → Nat → Nat → Nat) (upload : Except PyError Unit),
      resp.status = 200 →
      coverPhase pid
        (get_and_modify_cover_image [⟨url⟩] (fun _ => Except.ok resp)
          (fun _ => Except.error e) enc)
        upload = Except.error e) ∧
    (∀ (pid : Nat) (cover : Except PyError (Option EncodedCover))
      (upload : Except PyError Unit) (pl : Nat) (b : Bool),
      coverPhase pid cover upload = Except.ok (pl, b) → pl = pid) := by
  refine ⟨fun pid buf e => rfl, fun url resp decode enc hs => ?_,
    fun pid url resp e enc upload hs => ?_, fun pid cover upload pl b h => ?_⟩
  · show (if resp.status ≠ 200 then (Except.ok none : Except PyError (Option EncodedCover))
        else
          match decode resp.body with
          | Except.error e => Except.error e
          | Except.ok (w, h) =>
            Except.ok (some (compressCover enc (resizeStep w h).1 (resizeStep w h).2))) =
      Except.ok none
    rw [if_pos hs]
  · have hcover : get_and_modify_cover_image [⟨url⟩] (fun _ => Except.ok resp)
        (fun _ => Except.error e) enc = Except.error e := by
      show (if resp.status ≠ 200 then (Except.ok none : Except PyError (Option EncodedCover))
          else Except.error e) = Except.error e
      rw [if_neg (by omega)]
    rw [hcover]
    rfl
  · cases cover with
    | error e => exact absurd h (by simp [coverPhase])
    | ok o =>
      cases o with
      | none =>
        simp only [coverPhase, Except.ok.injEq, Prod.mk.injEq] at h
        exact h.1.symm
      | some buf =>
        simp only [coverPhase, Except.ok.injEq, Prod.mk.injEq] at h
        exact h.1.symm

/-- Claim C8 witness: the amended statement instantiated on a failing upload,
a 404 fetch, a failing decode, and a completing cover phase. -/
theorem c8_witness :
    coverPhase 7 (Except.ok (some ⟨1, 1, 85, 0⟩))
        (Except.error PyError.uploadFailure) = Except.ok (7, false) ∧
    get_and_modify_cover_image [⟨"img".toList⟩]
        (fun _ => Except.ok ⟨404, []⟩) c8BadDecode (fun _ _ _ => 0) =
      Except.ok none ∧
    coverPhase 7
        (get_and_modify_cover_image [⟨"img".toList⟩]
          (fun _ => Except.ok ⟨200, []⟩)
          (fun _ => Except.error PyError.decodeFailure) (fun _ _ _ => 0))
        (Except.ok ()) = Except.error PyError.decodeFailure ∧
    (7 : Nat) = 7 :=
  ⟨c8_amended.1 7 ⟨1, 1, 85, 0⟩ PyError.uploadFailure,
   c8_amended.2.1 ("img".toList) ⟨404, []⟩ c8BadDecode (fun _ _ _ => 0)
     (by decide),
   c8_amended.2.2.1 7 ("img".toList) ⟨200, []⟩ PyError.decodeFailure
     (fun _ _ _ => 0) (Except.ok ()) rfl,
   c8_amended.2.2.2 7 (Except.ok none) (Except.ok ()) 7 false rfl⟩

/-- The batch loop of create_spotify_playlist (src/main.py lines 101-106): for
i in range(0, len(track_ids), 100), the slice track_ids[i : i + 100], in issue
order.  The start indices of the Python range with step 100 are 100 * k for
k < ceil(len / 100), and the source skips the loop entirely for an empty id
list, which coincides with the empty batch list here. -/
def addTracksBatches {α : Type} (l : List α) : List (List α) :=
  (List.range ((l.length + 99) / 100)).map (fun k => (l.drop (100 * k)).take 100)

/-- Peeling one batch off a non-empty id list: the first batch is the first
hundred ids and the remaining batches are the batches of the rest. -/
theorem addTracksBatches_cons {α : Type} (l : List α) (h : l ≠ []) :
    addTracksBatches l = l.take 100 :: addTracksBatches (l.drop 100) := by
  have hn : 1 ≤ l.length := List.length_pos.mpr h
  have hm : (l.length + 99) / 100 = ((l.drop 100).length + 99) / 100 + 1 := by
    rw [List.length_drop]; omega
  unfold addTracksBatches
  rw [hm, List.range_succ_eq_map, List.map_cons, List.map_map]
  refine congrArg₂ _ (by rw [Nat.mul_zero, List.drop_zero]) ?_
  refine List.map_congr_left fun k _ => ?_
  simp only [Function.comp_apply, List.drop_drop]
  rw [show 100 * Nat.succ k = 100 + 100 * k by omega]

/-- Concatenating the batches in issue order restores the id list: every id is
inserted exactly once and in the original order. -/
theorem addTracksBatches_flatten {α : Type} :
    ∀ (l : List α), (addTracksBatches l).flatten = l
  | [] => by simp [addTracksBatches]
  | t :: rest => by
    rw [addTracksBatches_cons (t :: rest) (by simp), List.flatten_cons,
      addTracksBatches_flatten ((t :: rest).drop 100)]
    exact List.take_append_drop 100 (t :: rest)
termination_by l => l.length
decreasing_by simp [List.length_drop]; omega

/-- Batch i is exactly the slice of the id list from index 100 * i of length at
most 100 (the empty slice when i is past the end). -/
theorem addTracksBatches_getD {α : Type} :
    ∀ (l : List α) (i : Nat),
      (addTracksBatches l).getD i [] = (l.drop (100 * i)).take 100
  | [], i => by simp [addTracksBatches]
  | t :: rest, 0 => by
    rw [addTracksBatches_cons (t :: rest) (by simp), List.getD_cons_zero,
      Nat.mul_zero, List.drop_zero]
  | t :: rest, i + 1 => by
    rw [addTracksBatches_cons (t :: rest) (by simp), List.getD_cons_succ,
      addTracksBatches_getD ((t :: rest).drop 100) i, List.drop_drop]
    rw [show 100 + 100 * i = 100 * (i + 1) by ring]
termination_by l _ => l.length
decreasing_by simp [List.length_drop]; omega

/-- No batch exceeds the per-call limit of 100 items. -/
theorem addTracksBatches_le {α : Type} (l : List α) (b : List α)
    (h : b ∈ addTracksBatches l) : b.length ≤ 100 := by
  unfold addTracksBatches at h
  obtain ⟨k, _, rfl⟩ := List.mem_map.mp h
  exact List.length_take_le 100 _

set_option maxRecDepth 8000 in
/-- Claim C9: insertion proceeds over the resolved ids in original order in
consecutive batches of at most 100, batch i covering exactly the indices from
100 * i; 250 ids give exactly three batches of sizes 100, 100 and 50, with no
reordering or duplication across batches. -/
theorem c9_batches :
    (∀ (α : Type) (l : List α), (addTracksBatches l).flatten = l) ∧
    (∀ (α : Type) (l : List α) (i : Nat),
      (addTracksBatches l).getD i [] = (l.drop (100 * i)).take 100) ∧
    (∀ (α : Type) (l : List α) (b : List α),
      b ∈ addTracksBatches l → b.length ≤ 100) ∧
    (addTracksBatches (List.range 250)).map List.length = [100, 100, 50] ∧
    (addTracksBatches (List.range 250)).flatten = List.range 250 :=
  ⟨fun _ l => addTracksBatches_flatten l,
   fun _ l i => addTracksBatches_getD l i,
   fun _ l b h => addTracksBatches_le l b h,
   by decide,
   addTracksBatches_flatten (List.range 250)⟩

set_option maxRecDepth 8000 in
/-- Claim C9 witness: the membership-hypothesis part instantiated on the first
batch of the 250-id run. -/
theorem c9_witness : ((List.range 250).take 100).length ≤ 100 :=
  c9_batches.2.2.1 Nat (List.range 250) ((List.range 250).take 100) (by decide)

end Listen2This
